import Mathlib

/-!
Shallow embedding of the mist client streaming-session coordinator:
the mounted `Player` page component (client/src/pages/Player.tsx) and the
`useHLSPlayer` hook together with its `CustomKeyLoader`, `xhrSetup` and
`getAuthToken` helpers.  Numbers that JavaScript stores as doubles are
modelled as rationals; JavaScript truthiness of optional numeric fields and
of strings is modelled explicitly.
-/

/-- Bool test that a list of characters starts with a given pattern. -/
def charStarts : List Char → List Char → Bool
  | _, [] => true
  | [], _ :: _ => false
  | a :: as, b :: bs => a == b && charStarts as bs

/-- Bool test that a pattern occurs somewhere inside a list of characters. -/
def charContains : List Char → List Char → Bool
  | [], pat => pat.isEmpty
  | a :: as, pat => charStarts (a :: as) pat || charContains as pat

/-- Model of the JavaScript `String.prototype.includes` test. -/
def containsSub (s pat : String) : Bool := charContains s.toList pat.toList

/-- Model of the JavaScript `Math.floor` on exact rational inputs
(floor towards negative infinity). -/
def jsFloor (q : Rat) : Int := Int.fdiv q.num q.den

/-- JavaScript truthiness of an optional numeric field: `undefined`/`null`
and `0` are falsy, every other number is truthy. -/
def jsTruthy : Option Rat → Bool
  | none => false
  | some x => !(x == 0)

/-! ### Key Redirector: CustomKeyLoader.load (client hook, types/index.ts lines 155-167) -/

/-- The internal-address pattern tested by `CustomKeyLoader.load`: the URL
contains `localhost:8000` or `127.0.0.1:8000`, and also contains `/keys/`. -/
def isInternalKeyRequest (url : String) : Bool :=
  (containsSub url "localhost:8000" || containsSub url "127.0.0.1:8000")
    && containsSub url "/keys/"

/-- `CustomKeyLoader.load`: when the request URL matches the internal key
pattern and the resolved manifest declares a truthy (non-empty) public
`keyEndpoint`, `context.url` is replaced by that endpoint before
`super.load` dispatches the request; otherwise the URL is left unchanged. -/
def keyLoaderRewrite (keyEndpoint url : String) : String :=
  if isInternalKeyRequest url && !(keyEndpoint == "") then keyEndpoint else url

/-! ### Bearer auth on key requests: getAuthToken and xhrSetup (types/index.ts lines 115-124, 173-181) -/

/-- Parsed `state` object of the persisted `auth-storage` entry. -/
structure AuthStorageState where
  token : Option String
deriving DecidableEq

/-- `getAuthToken`: reads the persisted auth store; yields the stored token
when the entry exists and parses, `null` otherwise (`state?.token ?? null`). -/
def getAuthToken (stored : Option AuthStorageState) : Option String :=
  match stored with
  | none => none
  | some st => st.token

/-- The key-request test used by `xhrSetup`: the URL contains `/keys/` or
`/api/keys/`. -/
def isKeyRequestUrl (url : String) : Bool :=
  containsSub url "/keys/" || containsSub url "/api/keys/"

/-- `xhrSetup`: the Authorization header value set on an outgoing request,
if any.  Key requests get `Bearer` plus the stored token when the token is
truthy (present and non-empty, the `if (token)` check); all other requests
get no Authorization header from the hook. -/
def xhrAuthHeader (stored : Option AuthStorageState) (url : String) : Option String :=
  if isKeyRequestUrl url then
    match getAuthToken stored with
    | some t => if !(t == "") then some ("Bearer " ++ t) else none
    | none => none
  else none

/-! ### 429 handling in the load-track catch (Player.tsx lines 59-72) -/

/-- Structured payload carried by a 429 response detail object. -/
structure QuotaDetail429 where
  error : String
  minutes_used : Rat
  quota_limit : Rat
deriving DecidableEq

/-- The error message surfaced by the 429 branch of the `loadTrack` catch:
with a structured detail object whose `error` field is truthy the message is
the formatted usage string, otherwise the generic quota-exceeded message. -/
def quota429Message (detail : Option QuotaDetail429) : String :=
  match detail with
  | some d =>
    if !(d.error == "") then
      d.error ++ ". Used " ++ toString (jsFloor d.minutes_used) ++ " of "
        ++ toString (jsFloor d.quota_limit) ++ " minutes today."
    else "Daily listening quota exceeded"
  | none => "Daily listening quota exceeded"

/-! ### The Player render function (Player.tsx lines 154-247) -/

/-- Quota object stored by the player (session-start and heartbeat
responses): `unlimited` flag plus optional numeric fields. -/
structure QuotaInfo where
  unlimited : Bool
  minutes_remaining : Option Rat
  quota_limit : Option Rat
deriving DecidableEq

/-- The slice of Player component state that the render cascade reads. -/
structure PlayerViewState where
  loading : Bool
  error : String
  track : Option Nat
  quota : Option QuotaInfo
deriving DecidableEq

/-- The four mutually exclusive screens the Player render returns. -/
inductive PlayerView
  | loadingView
  | errorView (msg : String)
  | limitReached
  | mainView
deriving DecidableEq

/-- The render cascade of the Player component: loading screen, then error
screen when `error` is truthy or `track` is null, then the terminal limit
screen when a stored quota has a falsy `minutes_remaining`, else the main
screen with the audio element and controls. -/
def renderPlayer (s : PlayerViewState) : PlayerView :=
  if s.loading then .loadingView
  else if !(s.error == "") || s.track.isNone then
    .errorView (if !(s.error == "") then s.error else "Track not found")
  else
    match s.quota with
    | some q => if !(jsTruthy q.minutes_remaining) then .limitReached else .mainView
    | none => .mainView

/-- Whether the returned screen mounts the audio element (only the main
screen does). -/
def viewHasAudio : PlayerView → Bool
  | .loadingView => false
  | .errorView _ => false
  | .limitReached => false
  | .mainView => true

/-- Whether the returned screen mounts the play/pause control (only the
main screen renders PlayerControls). -/
def viewHasPlayControl : PlayerView → Bool
  | .loadingView => false
  | .errorView _ => false
  | .limitReached => false
  | .mainView => true

/-! ### useHLSPlayer effect guard, hlsLoaded and togglePlay (types/index.ts lines 126-190, Player.tsx lines 108-115) -/

/-- Stream descriptor handed to the hook. -/
structure HookStreamInfo where
  streamUrl : String
  keyEndpoint : String
  encrypted : Bool
deriving DecidableEq

/-- JavaScript truthiness of `streamInfo?.streamUrl`. -/
def streamInfoUrlTruthy : Option HookStreamInfo → Bool
  | none => false
  | some si => !(si.streamUrl == "")

/-- The guard of the useHLSPlayer effect: the Hls engine instance is
constructed only when the page is not loading, the error string is empty,
a stream URL is present and the audio element exists; in every other case
the effect returns before `new HlsLib(...)`. -/
def hlsEngineCreated (loading : Bool) (error : String)
    (streamInfo : Option HookStreamInfo) (audioPresent : Bool) : Bool :=
  if loading || !(error == "") || !(streamInfoUrlTruthy streamInfo) || !audioPresent then
    false
  else
    true

/-- `hlsLoaded` can only become true through the MANIFEST_PARSED handler,
which is registered on an engine instance that was actually created. -/
def hlsLoadedAfter (engineCreated manifestParsed : Bool) : Bool :=
  engineCreated && manifestParsed

/-- Commands `togglePlay` can issue to the media element. -/
inductive MediaCmd
  | play
  | pause
deriving DecidableEq

/-- `togglePlay`: a no-op unless the audio element exists and `hlsLoaded`
is true; otherwise pauses when playing and plays when paused. -/
def togglePlay (audioPresent hlsLoaded isPlaying : Bool) : Option MediaCmd :=
  if !audioPresent || !hlsLoaded then none
  else if isPlaying then some .pause else some .play

/-! ### The Hls ERROR handler of useHLSPlayer (types/index.ts lines 192-207) -/

/-- Error classes distinguished by the handler switch. -/
inductive HlsErrorType
  | network
  | media
  | other
deriving DecidableEq

/-- An engine error event: fatal flag plus its type. -/
structure HlsErrorEvent where
  fatal : Bool
  etype : HlsErrorType
deriving DecidableEq

/-- Commands the handler issues to the engine. -/
inductive HlsCmd
  | restartLoad
  | recoverMediaError
  | destroy
deriving DecidableEq

/-- Adapter-visible state touched by the handler.  The hook keeps no retry
counter; the only mutation in the handler is `hls.destroy()` on the default
fatal branch, and the hook never writes a user-visible error string. -/
structure AdapterState where
  destroyed : Bool
  surfacedError : Option String
deriving DecidableEq

/-- Adapter state at the start of an attach cycle. -/
def hlsErrorInit : AdapterState := { destroyed := false, surfacedError := none }

/-- The ERROR handler: non-fatal events are ignored; a fatal network error
issues `startLoad`, a fatal media error issues `recoverMediaError`, and any
other fatal error destroys the engine. -/
def hlsOnError (s : AdapterState) (e : HlsErrorEvent) : AdapterState × List HlsCmd :=
  if e.fatal then
    match e.etype with
    | .network => (s, [.restartLoad])
    | .media => (s, [.recoverMediaError])
    | .other => ({ s with destroyed := true }, [.destroy])
  else
    (s, [])

/-- Folding the handler over a sequence of engine error events within one
attach cycle, accumulating the issued commands. -/
def hlsProcess (s : AdapterState) : List HlsErrorEvent → AdapterState × List HlsCmd
  | [] => (s, [])
  | e :: es =>
    let step := hlsOnError s e
    let rest := hlsProcess step.1 es
    (rest.1, step.2 ++ rest.2)

/-- A fatal network-type engine error event. -/
def netFatal : HlsErrorEvent := { fatal := true, etype := .network }

/-! ### The heartbeat effect (Player.tsx lines 79-97) -/

/-- A live heartbeat interval: its delay in milliseconds and the session id
captured by the interval closure when the effect created it. -/
structure HBTimer where
  delayMs : Nat
  sessId : Nat
deriving DecidableEq

/-- The state relevant to the heartbeat effect: the two effect dependencies
`isPlaying` and `sessionId`, the audio element (none when unmounted, some
current position otherwise) and the interval, plus the log of heartbeat
calls sent so far as (session id, position) pairs, most recent first. -/
structure HBWorld where
  isPlaying : Bool
  sessionId : Option Nat
  audioTime : Option Rat
  timer : Option HBTimer
  sent : List (Nat × Rat)
deriving DecidableEq

/-- The heartbeat effect body, run after any change of its dependencies.
The React cleanup has already cleared the previous interval; the body
creates a fresh 5000 ms interval only when `isPlaying` is true, `sessionId`
is non-null and the audio element exists, capturing the session id. -/
def hbEffect (w : HBWorld) : HBWorld :=
  match w.isPlaying, w.sessionId, w.audioTime with
  | true, some s, some _ => { w with timer := some { delayMs := 5000, sessId := s } }
  | _, _, _ => { w with timer := none }

/-- Events driving the heartbeat model: dependency changes rerun the
effect, `advance` moves or removes the audio element without rerunning it,
`tick` fires the interval callback, `unmount` runs the effect cleanup. -/
inductive HBEvent
  | setPlaying (b : Bool)
  | setSession (o : Option Nat)
  | advance (t : Option Rat)
  | tick
  | unmount
deriving DecidableEq

/-- One step of the heartbeat model.  On `tick` the interval callback
checks that the audio element exists and the captured session id is
non-null, then sends a heartbeat carrying the current playback position. -/
def hbStep (w : HBWorld) : HBEvent → HBWorld
  | .setPlaying b => hbEffect { w with isPlaying := b }
  | .setSession o => hbEffect { w with sessionId := o }
  | .advance t => { w with audioTime := t }
  | .tick =>
    match w.timer, w.audioTime with
    | some tm, some pos => { w with sent := (tm.sessId, pos) :: w.sent }
    | _, _ => w
  | .unmount => { w with timer := none }

/-- Initial heartbeat-model state of a freshly mounted Player. -/
def hbInit : HBWorld :=
  { isPlaying := false, sessionId := none, audioTime := none, timer := none, sent := [] }

/-- Run the heartbeat model over a list of events from the initial state. -/
def hbRun (es : List HBEvent) : HBWorld := es.foldl hbStep hbInit

/-! ### The load-track effect (Player.tsx lines 41-76) -/

/-- The dependency array of the load effect: the route track id and the
identity of the user object from the auth store. -/
structure LoadDeps where
  id : Option Nat
  user : Option Nat
deriving DecidableEq

/-- API calls issued by the load effect body, in order. -/
inductive ApiCall
  | getTrack (id : Nat)
  | getStreamInfo (id : Nat)
  | startSession (id : Nat)
deriving DecidableEq

/-- How far one resolution attempt gets before its first failure. -/
inductive LoadOutcome
  | trackFail
  | streamFail
  | ok
deriving DecidableEq

/-- The sequential awaits of one `loadTrack` run: track metadata, stream
info, then exactly one session start; a thrown error stops the sequence. -/
def loadTrackCalls (i : Nat) : LoadOutcome → List ApiCall
  | .trackFail => [.getTrack i]
  | .streamFail => [.getTrack i, .getStreamInfo i]
  | .ok => [.getTrack i, .getStreamInfo i, .startSession i]

/-- One run of the load effect: returns immediately when the route id is
absent, otherwise performs one `loadTrack` resolution attempt. -/
def loadEffectCalls (o : LoadOutcome) (d : LoadDeps) : List ApiCall :=
  match d.id with
  | none => []
  | some i => loadTrackCalls i o

/-- Helper for `effectRunDeps`: drops renders whose dependencies equal the
previous render, keeping those where some dependency changed. -/
def effectRunsAux (prev : LoadDeps) : List LoadDeps → List LoadDeps
  | [] => []
  | d :: ds => if d = prev then effectRunsAux prev ds else d :: effectRunsAux d ds

/-- React effect semantics for the load effect: given the dependency values
of each successive render, the effect body runs on mount and again exactly
when a dependency differs from the previous render. -/
def effectRunDeps : List LoadDeps → List LoadDeps
  | [] => []
  | d :: ds => d :: effectRunsAux d ds

/-- Recogniser for the session-start call. -/
def isStartCall : ApiCall → Bool
  | .startSession _ => true
  | _ => false

/-- Total number of session-start calls issued over a render trace in which
every resolution attempt succeeds. -/
def startCallCount (renders : List LoadDeps) : Nat :=
  (((effectRunDeps renders).map (loadEffectCalls .ok)).flatten).countP isStartCall

/-! ### Completion calls (Player.tsx lines 99-106 and 144-152) -/

/-- State relevant to session completion: the current session id, the audio
element (none when absent, some current position otherwise), the media
duration, and the log of completion calls as (session id, position). -/
structure CompWorld where
  sessionId : Option Nat
  audioTime : Option Rat
  audioDuration : Rat
  completes : List (Nat × Rat)
deriving DecidableEq

/-- Teardown-related events: the audio element fires `ended`, the component
unmounts, or the `sessionId` dependency changes while mounted (running the
completion-effect cleanup for the old session with a live audio ref). -/
inductive CompEvent
  | trackEnd
  | unmountEv
  | setSession (o : Option Nat)
deriving DecidableEq

/-- One step of the completion model.  `handleTrackEnd` completes at the
media duration while mounted.  On unmount React detaches the audio ref in
the commit mutation phase before the passive cleanup of the completion
effect runs, so that cleanup sees a null ref, its guard fails and it sends
nothing.  When the `sessionId` dependency changes while the component stays
mounted, the same cleanup runs with a live audio ref and completes the old
session at the current position.  No path records that a completion
already ran. -/
def compStep (w : CompWorld) : CompEvent → CompWorld
  | .trackEnd =>
    match w.sessionId, w.audioTime with
    | some s, some _ => { w with completes := (s, w.audioDuration) :: w.completes }
    | _, _ => w
  | .unmountEv => { w with audioTime := none }
  | .setSession o =>
    match w.sessionId, w.audioTime with
    | some s, some t => { w with completes := (s, t) :: w.completes, sessionId := o }
    | _, _ => { w with sessionId := o }

/-- Run the completion model over a list of events. -/
def compRun (w : CompWorld) (es : List CompEvent) : CompWorld := es.foldl compStep w

/-- A mounted player with active session 1 whose track has just reached its
end at position 123.4 seconds. -/
def compWorld0 : CompWorld :=
  { sessionId := some 1, audioTime := some (123.4 : Rat),
    audioDuration := (123.4 : Rat), completes := [] }

/-! ### Interval timers created by the mounted Player (Player.tsx lines 79-106) -/

/-- What a periodic timer is for. -/
inductive TimerPurpose
  | heartbeat
  | quotaPoll
deriving DecidableEq

/-- A live `setInterval` timer: purpose and delay in milliseconds. -/
structure IntervalTimer where
  purpose : TimerPurpose
  delayMs : Nat
deriving DecidableEq

/-- The interval timers alive in the mounted Player for a given state: the
component contains exactly one `setInterval` call, the 5000 ms heartbeat,
created only while playing with a non-null session and a mounted audio
element; no other effect of the mounted Player or of useHLSPlayer creates a
periodic timer. -/
def playerIntervals (isPlaying : Bool) (sessionId : Option Nat)
    (audioPresent : Bool) : List IntervalTimer :=
  if isPlaying && sessionId.isSome && audioPresent then
    [{ purpose := .heartbeat, delayMs := 5000 }]
  else
    []

/-! ### Helper lemmas -/

/-- A string append is nonempty when its left part is. -/
lemma string_append_ne_empty_left (a b : String) (h : a ≠ "") : a ++ b ≠ "" := by
  intro he
  have hl := congrArg String.length he
  rw [String.length_append] at hl
  simp at hl
  refine h ?_
  have h0 : a.length = 0 := hl.1
  cases a with
  | mk data =>
    cases data with
    | nil => rfl
    | cons c cs => simp [String.length] at h0

/-- The surfaced 429 message is never the empty string. -/
lemma quota429Message_ne_empty (detail : Option QuotaDetail429) :
    quota429Message detail ≠ "" := by
  unfold quota429Message
  cases detail with
  | none => decide
  | some d =>
    cases hE : (d.error == "") with
    | true => simp [hE]
    | false =>
      simp only [hE, Bool.not_false, if_pos]
      have hne : d.error ≠ "" := by
        intro h; rw [h] at hE; simp at hE
      exact string_append_ne_empty_left _ _
        (string_append_ne_empty_left _ _
          (string_append_ne_empty_left _ _
            (string_append_ne_empty_left _ _
              (string_append_ne_empty_left _ _ hne))))

/-- With loading finished and a truthy error string, the render cascade
returns the transient error screen. -/
lemma renderPlayer_error (st : PlayerViewState) (hl : st.loading = false)
    (he : st.error ≠ "") : renderPlayer st = PlayerView.errorView st.error := by
  have hBeq : (st.error == "") = false := beq_eq_false_iff_ne.mpr he
  simp [renderPlayer, hl, hBeq]

/-! ### Claims -/

/-- Claim C1: whenever the stored quota (from the session-start response or
from a heartbeat response) has zero remaining time and is not unlimited, no
rendered screen mounts the audio element or the play control, and the
normally reachable screen is the terminal limit-reached state, which is a
different view than the transient error screen. -/
theorem quota_gate_zero_remaining (s : PlayerViewState) (q : QuotaInfo)
    (hq : s.quota = some q) (hz : jsTruthy q.minutes_remaining = false)
    (hu : q.unlimited = false) :
    viewHasAudio (renderPlayer s) = false
    ∧ viewHasPlayControl (renderPlayer s) = false
    ∧ (s.loading = false → s.error = "" → s.track.isNone = false →
        renderPlayer s = PlayerView.limitReached)
    ∧ (∀ m, PlayerView.limitReached ≠ PlayerView.errorView m) := by
  have hnotmain : renderPlayer s ≠ PlayerView.mainView := by
    cases hL : s.loading with
    | true => simp [renderPlayer, hL]
    | false =>
      cases hE : (!(s.error == "") || s.track.isNone) with
      | true => simp [renderPlayer, hL, hE]
      | false => simp [renderPlayer, hL, hE, hq, hz]
  have hmain : ∀ v : PlayerView, v ≠ PlayerView.mainView →
      viewHasAudio v = false ∧ viewHasPlayControl v = false := by
    intro v hv
    cases v <;> simp_all [viewHasAudio, viewHasPlayControl]
  refine ⟨(hmain _ hnotmain).1, (hmain _ hnotmain).2, ?_, ?_⟩
  · intro h1 h2 h3
    have hE : (!(s.error == "") || s.track.isNone) = false := by simp [h2, h3]
    simp only [renderPlayer, h1, hE, Bool.false_eq_true, if_false, hq, hz,
      Bool.not_false, if_true]
  · intro m h; cases h

/-- The scenario-B quota after the heartbeat response: zero minutes left,
not unlimited. -/
def exhaustedQuota : QuotaInfo :=
  { unlimited := false, minutes_remaining := some 0, quota_limit := some 30 }

/-- A loaded player state holding the exhausted quota. -/
def exhaustedState : PlayerViewState :=
  { loading := false, error := "", track := some 42, quota := some exhaustedQuota }

/-- Claim C1 witness: a concrete state with a stored quota of zero remaining
minutes and unlimited false renders the terminal limit screen without audio. -/
theorem quota_gate_zero_remaining_witness :
    renderPlayer exhaustedState = PlayerView.limitReached
    ∧ viewHasAudio (renderPlayer exhaustedState) = false := by
  have h := quota_gate_zero_remaining exhaustedState exhaustedQuota rfl (by decide) rfl
  exact ⟨h.2.2.1 rfl rfl (by decide), h.1⟩

/-- Claim C5: a key request whose URL contains an internal address together
with the keys path is rewritten to a declared non-empty public key endpoint,
and every request not matching the pattern, or with no declared endpoint,
keeps its URL. -/
theorem key_redirect_rewrite (url ep : String) :
    (isInternalKeyRequest url = true → ep ≠ "" → keyLoaderRewrite ep url = ep)
    ∧ (isInternalKeyRequest url = false → keyLoaderRewrite ep url = url)
    ∧ (ep = "" → keyLoaderRewrite ep url = url) := by
  refine ⟨?_, ?_, ?_⟩
  · intro h1 h2
    have hB : (ep == "") = false := beq_eq_false_iff_ne.mpr h2
    simp [keyLoaderRewrite, h1, hB]
  · intro h1; simp [keyLoaderRewrite, h1]
  · intro h1; simp [keyLoaderRewrite, h1]

/-- Claim C5 witness: the scenario-A rewrite fires on an internal key URL
and leaves a segment URL untouched. -/
theorem key_redirect_rewrite_witness :
    keyLoaderRewrite "https://pub.example/keys/42" "http://localhost:8000/api/v1/keys/42"
      = "https://pub.example/keys/42"
    ∧ keyLoaderRewrite "https://pub.example/keys/42" "https://cdn.example/stream/42/seg1.ts"
      = "https://cdn.example/stream/42/seg1.ts" := by
  have h1 := key_redirect_rewrite "http://localhost:8000/api/v1/keys/42"
    "https://pub.example/keys/42"
  have h2 := key_redirect_rewrite "https://cdn.example/stream/42/seg1.ts"
    "https://pub.example/keys/42"
  exact ⟨h1.1 (by decide) (by decide), h2.2.1 (by decide)⟩

/-- Claim C6: a key request (URL containing the keys path) is given the
bearer Authorization header built from the stored access token whenever
that token is truthy (non-empty), a non-key request gets no Authorization
header from the hook, and a stored empty-string token (falsy in the
`if (token)` check) also produces no header. -/
theorem key_request_auth_header (stored : Option AuthStorageState) (url t : String) :
    (isKeyRequestUrl url = true → getAuthToken stored = some t → t ≠ "" →
      xhrAuthHeader stored url = some ("Bearer " ++ t))
    ∧ (isKeyRequestUrl url = false → xhrAuthHeader stored url = none)
    ∧ (getAuthToken stored = some "" → xhrAuthHeader stored url = none) := by
  refine ⟨?_, ?_, ?_⟩
  · intro h1 h2 h3
    have hB : (t == "") = false := beq_eq_false_iff_ne.mpr h3
    simp [xhrAuthHeader, h1, h2, hB]
  · intro h1; simp [xhrAuthHeader, h1]
  · intro h2
    cases hk : isKeyRequestUrl url <;> simp [xhrAuthHeader, hk, h2]

/-- Claim C6 witness: with a stored token, a key URL gets the bearer header
and a playlist URL gets none. -/
theorem key_request_auth_header_witness :
    xhrAuthHeader (some { token := some "tok123" }) "http://localhost:8000/api/v1/keys/42"
      = some "Bearer tok123"
    ∧ xhrAuthHeader (some { token := some "tok123" }) "https://cdn.example/playlist.m3u8"
      = none := by
  have h1 := key_request_auth_header (some { token := some "tok123" })
    "http://localhost:8000/api/v1/keys/42" "tok123"
  have h2 := key_request_auth_header (some { token := some "tok123" })
    "https://cdn.example/playlist.m3u8" "tok123"
  exact ⟨h1.1 (by decide) rfl (by decide), h2.2.1 (by decide)⟩

/-- Claim C7: with a structured 429 payload the surfaced message is the
error text followed by the floored usage numbers in the fixed format; with
no structured payload the generic message is surfaced; and a state carrying
the surfaced message renders a screen without the audio element or the play
control, so playback does not proceed. -/
theorem quota_429_message_format (d : QuotaDetail429) (h : d.error ≠ "")
    (st : PlayerViewState) (hl : st.loading = false)
    (he : st.error = quota429Message (some d)) :
    quota429Message (some d)
      = d.error ++ ". Used " ++ toString (jsFloor d.minutes_used) ++ " of "
        ++ toString (jsFloor d.quota_limit) ++ " minutes today."
    ∧ quota429Message none = "Daily listening quota exceeded"
    ∧ viewHasAudio (renderPlayer st) = false
    ∧ viewHasPlayControl (renderPlayer st) = false := by
  have hB : (d.error == "") = false := beq_eq_false_iff_ne.mpr h
  have hne : st.error ≠ "" := by
    rw [he]; exact quota429Message_ne_empty (some d)
  have hview := renderPlayer_error st hl hne
  refine ⟨by simp [quota429Message, hB], rfl, ?_, ?_⟩
  · rw [hview]; rfl
  · rw [hview]; rfl

/-- The scenario-C structured 429 payload. -/
def scenarioCDetail : QuotaDetail429 :=
  { error := "Daily limit exceeded", minutes_used := 30, quota_limit := 30 }

/-- A player state that finished loading with the scenario-C message. -/
def scenarioCState : PlayerViewState :=
  { loading := false, error := quota429Message (some scenarioCDetail),
    track := none, quota := none }

/-- Claim C7 witness: the scenario-C payload formats to the exact expected
sentence and the resulting state mounts no audio element. -/
theorem quota_429_message_format_witness :
    quota429Message (some scenarioCDetail)
      = "Daily limit exceeded. Used 30 of 30 minutes today."
    ∧ viewHasAudio (renderPlayer scenarioCState) = false := by
  have h := quota_429_message_format scenarioCDetail (by decide) scenarioCState rfl rfl
  exact ⟨h.1.trans (by decide), h.2.2.1⟩

/-- Claim C10: when resolution failed before the HLS setup effect ran (the
error string is non-empty), the engine is never constructed, hlsLoaded can
never become true whatever engine events occur, and the play control is a
no-op. -/
theorem no_engine_after_resolution_failure (error : String) (h : error ≠ "")
    (loading : Bool) (streamInfo : Option HookStreamInfo)
    (audioPresent manifestParsed isPlaying : Bool) :
    hlsEngineCreated loading error streamInfo audioPresent = false
    ∧ hlsLoadedAfter (hlsEngineCreated loading error streamInfo audioPresent)
        manifestParsed = false
    ∧ togglePlay audioPresent
        (hlsLoadedAfter (hlsEngineCreated loading error streamInfo audioPresent)
          manifestParsed) isPlaying = none := by
  have hB : (error == "") = false := beq_eq_false_iff_ne.mpr h
  have h1 : hlsEngineCreated loading error streamInfo audioPresent = false := by
    simp [hlsEngineCreated, hB]
  refine ⟨h1, ?_, ?_⟩
  · simp [hlsLoadedAfter, h1]
  · simp [togglePlay, hlsLoadedAfter, h1]

/-- Claim C10 witness: after the resolution failure message is set, with the
stream info present and an audio element mounted, the engine is still not
created and toggling play issues no media command. -/
theorem no_engine_after_resolution_failure_witness :
    hlsEngineCreated false "Failed to load track"
        (some { streamUrl := "https://cdn.example/42/index.m3u8",
                keyEndpoint := "https://pub.example/keys/42",
                encrypted := true }) true = false
    ∧ togglePlay true
        (hlsLoadedAfter (hlsEngineCreated false "Failed to load track"
          (some { streamUrl := "https://cdn.example/42/index.m3u8",
                  keyEndpoint := "https://pub.example/keys/42",
                  encrypted := true }) true) true) false = none := by
  have h := no_engine_after_resolution_failure "Failed to load track" (by decide)
    false (some { streamUrl := "https://cdn.example/42/index.m3u8",
                  keyEndpoint := "https://pub.example/keys/42",
                  encrypted := true }) true true false
  exact ⟨h.1, h.2.2⟩

/-- Claim C4: the track-ended handler and the sessionId-change cleanup of
the completion effect are uncoordinated: after the ended event fires and
the track id then changes while the component stays mounted (a new session
2 starts), session 1 has received two completion calls, where the claim
requires exactly one per session lifetime.  Track end followed by unmount
alone yields a single call, since React detaches the audio ref before the
unmount cleanup runs. -/
theorem completion_double_fire :
    ((compRun compWorld0
        [CompEvent.trackEnd, CompEvent.setSession (some 2)]).completes.countP
      (fun c => c.1 == 1)) = 2
    ∧ ((compRun compWorld0 [CompEvent.trackEnd, CompEvent.unmountEv]).completes.countP
      (fun c => c.1 == 1)) = 1 := by decide

/-- Claim C8 counterexample: three consecutive fatal network errors in one
attach cycle leave the adapter state exactly as it started (no retry
counter exists, nothing is destroyed, no user-visible error is surfaced)
and issue one restart-load per error, so no configured cap ever stops the
retrying and no escalation to a user-visible error occurs. -/
theorem network_retry_unbounded_cex :
    hlsProcess hlsErrorInit [netFatal, netFatal, netFatal]
      = (hlsErrorInit, [HlsCmd.restartLoad, HlsCmd.restartLoad, HlsCmd.restartLoad])
    ∧ hlsErrorInit.surfacedError = none
    ∧ hlsErrorInit.destroyed = false := by decide

/-- Processing n consecutive fatal network errors from the initial adapter
state yields n restart-load commands and returns to the initial state. -/
lemma hlsProcess_replicate_netFatal (n : Nat) :
    hlsProcess hlsErrorInit (List.replicate n netFatal)
      = (hlsErrorInit, List.replicate n HlsCmd.restartLoad) := by
  induction n with
  | zero => rfl
  | succ k ih =>
    rw [List.replicate_succ, List.replicate_succ]
    have hstep : hlsOnError hlsErrorInit netFatal = (hlsErrorInit, [HlsCmd.restartLoad]) := by
      simp [hlsOnError, netFatal]
    simp [hlsProcess, hstep, ih]

/-- Claim C8 as amended: every fatal network-type engine error triggers a
restart-load command, and consecutive network-type fatal errors trigger one
restart-load each without any bound; the adapter state never changes, so
the hook never stops retrying and never surfaces a user-visible error for
network-type fatal errors. -/
theorem network_restart_unbounded (n : Nat) (s : AdapterState) :
    hlsOnError s netFatal = (s, [HlsCmd.restartLoad])
    ∧ hlsProcess hlsErrorInit (List.replicate n netFatal)
        = (hlsErrorInit, List.replicate n HlsCmd.restartLoad)
    ∧ hlsErrorInit.surfacedError = none := by
  exact ⟨by simp [hlsOnError, netFatal], hlsProcess_replicate_netFatal n, rfl⟩

/-- Claim C9 counterexample: at the steady playing state the mounted Player
owns exactly one interval timer, the 5-second heartbeat, and no 60-second
quota-poll timer; while paused it owns no interval timer at all, so no
quota poll happens independent of playback state. -/
theorem quota_poll_missing_cex :
    playerIntervals true (some 1) true
      = [{ purpose := TimerPurpose.heartbeat, delayMs := 5000 }]
    ∧ (playerIntervals true (some 1) true).length = 1
    ∧ (playerIntervals true (some 1) true).countP
        (fun t => t.purpose == TimerPurpose.quotaPoll) = 0
    ∧ playerIntervals false (some 1) true = [] := by decide

/-- Claim C9 as amended: in every state the mounted Player owns either no
interval timer or only the 5-second heartbeat timer; it owns no quota-poll
timer in any state. -/
theorem player_single_timer (p : Bool) (s : Option Nat) (a : Bool) :
    (playerIntervals p s a = []
      ∨ playerIntervals p s a = [{ purpose := TimerPurpose.heartbeat, delayMs := 5000 }])
    ∧ (playerIntervals p s a).countP
        (fun t => t.purpose == TimerPurpose.quotaPoll) = 0 := by
  cases p <;> cases a <;> cases s <;>
    simp [playerIntervals, List.countP_cons]

/-- Renders whose dependencies repeat the previous render trigger no effect
run. -/
lemma effectRunsAux_replicate (d : LoadDeps) (n : Nat) :
    effectRunsAux d (List.replicate n d) = [] := by
  induction n with
  | zero => rfl
  | succ k ih => rw [List.replicate_succ]; simp [effectRunsAux, ih]

/-- Claim C2: one successful resolution attempt contains exactly one
session-start call, and over any number of consecutive renders with an
unchanged track id and user identity the load effect runs once, so exactly
one session-start call is issued in total. -/
theorem session_start_once_per_resolution (n i : Nat) (u : Option Nat) :
    (loadTrackCalls i LoadOutcome.ok).countP isStartCall = 1
    ∧ startCallCount (List.replicate (n + 1) { id := some i, user := u }) = 1 := by
  constructor
  · simp [loadTrackCalls, isStartCall, List.countP_cons]
  · unfold startCallCount
    rw [List.replicate_succ]
    simp [effectRunDeps, effectRunsAux_replicate, loadEffectCalls, loadTrackCalls,
      isStartCall, List.countP_cons]

/-- The heartbeat timer invariant: a live interval implies the playing
state is true, the session id matches the captured one and is non-null,
and the cadence is the fixed 5000 ms. -/
def hbInv (w : HBWorld) : Prop :=
  ∀ tm, w.timer = some tm →
    w.isPlaying = true ∧ w.sessionId = some tm.sessId ∧ tm.delayMs = 5000

/-- Rerunning the heartbeat effect always reestablishes the invariant. -/
lemma hbInv_effect (w : HBWorld) : hbInv (hbEffect w) := by
  intro tm h
  cases hp : w.isPlaying <;> cases hs : w.sessionId <;> cases ha : w.audioTime <;>
    simp only [hbEffect, hp, hs, ha] at h ⊢
  case true.some.some =>
    simp only [Option.some.injEq] at h
    subst h
    exact ⟨trivial, rfl, rfl⟩
  all_goals exact absurd h (by simp)

/-- Every step of the heartbeat model preserves the invariant. -/
lemma hbInv_step (w : HBWorld) (e : HBEvent) (hw : hbInv w) : hbInv (hbStep w e) := by
  cases e with
  | setPlaying b => exact hbInv_effect _
  | setSession o => exact hbInv_effect _
  | advance t =>
    intro tm h
    exact hw tm h
  | tick =>
    intro tm h
    have hfields : (hbStep w .tick).timer = w.timer
        ∧ (hbStep w .tick).isPlaying = w.isPlaying
        ∧ (hbStep w .tick).sessionId = w.sessionId := by
      cases ht : w.timer <;> cases ha : w.audioTime <;> simp [hbStep, ht, ha]
    rcases hfields with ⟨h1, h2, h3⟩
    rw [h1] at h
    rcases hw tm h with ⟨g1, g2, g3⟩
    exact ⟨h2.trans g1, h3.trans g2, g3⟩
  | unmount =>
    intro tm h
    simp [hbStep] at h

/-- The invariant is preserved by any event sequence. -/
lemma hbInv_foldl (es : List HBEvent) (w : HBWorld) (hw : hbInv w) :
    hbInv (es.foldl hbStep w) := by
  induction es generalizing w with
  | nil => exact hw
  | cons e es ih => exact ih _ (hbInv_step w e hw)

/-- Every reachable heartbeat-model state satisfies the invariant. -/
lemma hbInv_run (es : List HBEvent) : hbInv (hbRun es) := by
  have h0 : hbInv hbInit := by intro tm h; simp [hbInit] at h
  exact hbInv_foldl es hbInit h0

/-- Claim C3: in every reachable state, a live heartbeat interval implies
playing with a non-null session and the fixed 5-second cadence; a tick in a
paused or session-less state sends nothing; transitioning to paused or
unmounting clears the interval; and a tick with a live interval and a
mounted audio element sends exactly one heartbeat carrying the captured
session id and the current playback position. -/
theorem heartbeat_discipline (es : List HBEvent) :
    (∀ tm, (hbRun es).timer = some tm →
      (hbRun es).isPlaying = true ∧ (hbRun es).sessionId = some tm.sessId
        ∧ tm.delayMs = 5000)
    ∧ ((hbRun es).isPlaying = false ∨ (hbRun es).sessionId = none →
        (hbStep (hbRun es) HBEvent.tick).sent = (hbRun es).sent)
    ∧ (hbStep (hbRun es) (HBEvent.setPlaying false)).timer = none
    ∧ (hbStep (hbRun es) HBEvent.unmount).timer = none
    ∧ (∀ tm pos, (hbRun es).timer = some tm → (hbRun es).audioTime = some pos →
        (hbStep (hbRun es) HBEvent.tick).sent = (tm.sessId, pos) :: (hbRun es).sent) := by
  have inv := hbInv_run es
  refine ⟨fun tm h => inv tm h, ?_, ?_, ?_, ?_⟩
  · intro hd
    cases ht : (hbRun es).timer with
    | none => cases ha : (hbRun es).audioTime <;> simp [hbStep, ht, ha]
    | some tm =>
      rcases inv tm ht with ⟨g1, g2, _⟩
      cases hd with
      | inl h => rw [g1] at h; cases h
      | inr h => rw [h] at g2; cases g2
  · cases hs : (hbRun es).sessionId <;> cases ha : (hbRun es).audioTime <;>
      simp [hbStep, hbEffect, hs, ha]
  · simp [hbStep]
  · intro tm pos ht ha
    simp [hbStep, ht, ha]

/-- A trace that starts session 1, mounts the audio element at position 0
and starts playing. -/
def hbTrace0 : List HBEvent :=
  [HBEvent.setSession (some 1), HBEvent.advance (some 0), HBEvent.setPlaying true]

/-- Claim C3 witness: after the concrete trace the state is playing with
session 1, and a tick sends one heartbeat carrying session 1 at position 0. -/
theorem heartbeat_discipline_witness :
    (hbRun hbTrace0).isPlaying = true
    ∧ (hbRun hbTrace0).sessionId = some 1
    ∧ (hbStep (hbRun hbTrace0) HBEvent.tick).sent
        = ((1 : Nat), (0 : Rat)) :: (hbRun hbTrace0).sent := by
  have h := heartbeat_discipline hbTrace0
  have h1 := h.1 { delayMs := 5000, sessId := 1 } (by decide)
  have h5 := h.2.2.2.2 { delayMs := 5000, sessId := 1 } 0 (by decide) (by decide)
  exact ⟨h1.1, h1.2.1, h5⟩
